import Mathlib

/-!
Shallow embedding of `autogoals` (src/src/main.rs): the goal-status data
model, the serde-style YAML decoding of `GoalsFile`, and the session driver
loop of `start`, together with theorems checking the specification's claims.
-/

set_option maxHeartbeats 1000000

namespace Autogoals

/-- One goal record, mirroring `struct Goal` (main.rs lines 32–39):
`id`, `description`, `status` are required `String` fields; `plan` is
`Option<String>` with `#[serde(default)]`. -/
structure Goal where
  id : String
  description : String
  status : String
  plan : Option String
deriving Repr, DecidableEq

/-- The parsed status document, mirroring `struct GoalsFile` (main.rs 27–30):
a single field `goals : Vec<Goal>`. -/
structure GoalsFile where
  goals : List Goal
deriving Repr, DecidableEq

/-- `GoalsFile::has_pending_work` (main.rs 42–49): true iff some goal's
status string is exactly one of the four literals in the `matches!` arm.
Rust's `&str` equality is exact byte equality, embedded as `String` equality. -/
def GoalsFile.has_pending_work (f : GoalsFile) : Bool :=
  f.goals.any fun g =>
    g.status == "pending" || g.status == "ready_for_execution" ||
    g.status == "in_progress" || g.status == "ready_for_verification"

/-- Tail-recursive accumulator loop of `GoalsFile::count_by_status`
(main.rs 51–67): the three mutable counters `completed`, `in_progress`,
`pending` are threaded as arguments; the `match goal.status.as_str()` arms
become a sequential string-equality cascade, exactly as Rust compiles a
`&str` match. -/
def countLoop : List Goal → Nat → Nat → Nat → Nat × Nat × Nat
  | [], completed, actives, pendings => (completed, actives, pendings)
  | g :: gs, completed, actives, pendings =>
    if g.status = "completed" then
      countLoop gs (completed + 1) actives pendings
    else if g.status = "in_progress" ∨ g.status = "ready_for_execution"
        ∨ g.status = "ready_for_verification" then
      countLoop gs completed (actives + 1) pendings
    else
      countLoop gs completed actives (pendings + 1)

/-- `GoalsFile::count_by_status` (main.rs 51–67): returns
`(completed, in_progress, pending)` counts over the goal list in order. -/
def GoalsFile.count_by_status (f : GoalsFile) : Nat × Nat × Nat :=
  countLoop f.goals 0 0 0

/-- The three classification buckets of spec §3. -/
inductive Bucket where
  | completed
  | active
  | pending
deriving Repr, DecidableEq

/-- The §3 classification of a status string, read off the arms of the
`match` in `count_by_status`: exactly `"completed"` is completed; the three
active spellings are active; everything else (including `"not_started"`,
`"pending"` and any unrecognized string) is pending. -/
def classify (s : String) : Bucket :=
  if s = "completed" then .completed
  else if s = "in_progress" ∨ s = "ready_for_execution"
      ∨ s = "ready_for_verification" then .active
  else .pending

/-- The per-goal predicate inside `has_pending_work`'s `matches!`. -/
def triggersPendingWork (s : String) : Bool :=
  s == "pending" || s == "ready_for_execution" ||
  s == "in_progress" || s == "ready_for_verification"

theorem has_pending_work_eq_any (f : GoalsFile) :
    f.has_pending_work = f.goals.any fun g => triggersPendingWork g.status := rfl

/-- One step of `countLoop` adds one to the bucket `classify` picks. -/
theorem countLoop_cons (g : Goal) (gs : List Goal) (c a p : Nat) :
    countLoop (g :: gs) c a p =
      match classify g.status with
      | .completed => countLoop gs (c + 1) a p
      | .active => countLoop gs c (a + 1) p
      | .pending => countLoop gs c a (p + 1) := by
  simp only [countLoop, classify]
  by_cases h1 : g.status = "completed" <;> simp [h1]
  by_cases h2 : g.status = "in_progress" ∨ g.status = "ready_for_execution"
      ∨ g.status = "ready_for_verification" <;> simp [h2]

theorem countLoop_sum (gs : List Goal) : ∀ c a p : Nat,
    (countLoop gs c a p).1 + (countLoop gs c a p).2.1 + (countLoop gs c a p).2.2
      = c + a + p + gs.length := by
  induction gs with
  | nil => intro c a p; simp [countLoop]
  | cons g gs ih =>
    intro c a p
    rw [countLoop_cons]
    cases classify g.status <;> simp [ih] <;> omega

/-! ## The status document and its serde-style decoding

`parse_goals` (main.rs 162–166) reads the file to a string and runs
`serde_yaml::from_str::<GoalsFile>`. We embed the document after YAML
scalar resolution as a value tree and embed the derived `Deserialize`
impls over it: struct fields are looked up by name in a mapping, unknown
keys are ignored (serde's default, no `deny_unknown_fields`), a missing
field errors unless the field has a default, and a `String` field accepts
only a string scalar. -/

/-- A YAML document value (after scalar resolution): plain scalars such as
`pending` resolve to strings, while `null`/booleans/numbers resolve to
non-string values that a `String` field rejects. -/
inductive Yaml where
  | null
  | bool (b : Bool)
  | int (n : Int)
  | str (s : String)
  | seq (xs : List Yaml)
  | map (entries : List (String × Yaml))

/-- Deserialize a required Rust `String` field value. -/
def decodeString : Yaml → Except String String
  | .str s => .ok s
  | _ => .error "invalid type: expected a string"

/-- Deserialize a Rust `Option<String>` field value that is present. -/
def decodeOptString : Yaml → Except String (Option String)
  | .null => .ok none
  | .str s => .ok (some s)
  | _ => .error "invalid type: expected a string or null"

/-- Look up a required field `k` in a struct mapping, then decode it;
a missing key is serde's missing-field error. -/
def requiredField (es : List (String × Yaml)) (k : String)
    (dec : Yaml → Except String α) : Except String α :=
  match es.lookup k with
  | some v => dec v
  | none => .error ("missing field " ++ k)

/-- Derived `Deserialize` for `Goal` (main.rs 32–39): `id`, `description`,
`status` are required `String`s; `plan` carries `#[serde(default)]`, so a
missing `plan` key yields `none`; keys other than these four are ignored. -/
def decodeGoal : Yaml → Except String Goal
  | .map es => do
    let i ← requiredField es "id" decodeString
    let d ← requiredField es "description" decodeString
    let s ← requiredField es "status" decodeString
    let p ← match es.lookup "plan" with
      | some v => decodeOptString v
      | none => .ok none
    .ok ⟨i, d, s, p⟩
  | _ => .error "invalid type: expected a map for Goal"

/-- Derived `Deserialize` for `GoalsFile` (main.rs 27–30): a mapping with a
required `goals` sequence, each element a `Goal`; other top-level keys are
ignored. -/
def decodeGoalsFile : Yaml → Except String GoalsFile
  | .map es =>
    (requiredField es "goals" fun v =>
      match v with
      | .seq xs => xs.mapM decodeGoal
      | _ => .error "invalid type: expected a sequence for goals").map GoalsFile.mk
  | _ => .error "invalid type: expected a map for GoalsFile"

/-- What one loop iteration finds when `parse_goals` touches the file:
the read can fail (`IoError`), the text can fail YAML parsing
(`FormatError`), or it resolves to a document value. -/
inductive FileRead where
  | ioError
  | malformed
  | doc (y : Yaml)

/-- An `anyhow`-style error: the chain of `.context(...)` strings,
outermost first, over the original cause. -/
structure Err where
  contexts : List String
  cause : String
deriving Repr, DecidableEq

/-- `parse_goals` (main.rs 162–166): `fs::read_to_string` with context
"Failed to read goals.yaml", then `serde_yaml::from_str` with context
"Failed to parse YAML" (covering both YAML syntax errors and
deserialization errors). -/
def parse_goals (r : FileRead) : Except Err GoalsFile :=
  match r with
  | .ioError => .error ⟨["Failed to read goals.yaml"], "io error"⟩
  | .malformed => .error ⟨["Failed to parse YAML"], "yaml syntax error"⟩
  | .doc y =>
    match decodeGoalsFile y with
    | .ok f => .ok f
    | .error e => .error ⟨["Failed to parse YAML"], e⟩

/-! ## The session driver

`start` (main.rs 81–160): validate the project path and the presence of
`goals.yaml`, then loop: parse the file (fatal on failure, with context
"Failed to parse goals.yaml"), stop with success when `has_pending_work`
is false, otherwise spawn the collaborator (fatal on launch or wait
failure), record the session outcome, bump `session_num`, and iterate.
The environment supplies what the outside world returns at each step; the
loop is run on explicit fuel, with a distinguished out-of-fuel result, so
every claim is stated under a sufficient-fuel hypothesis. -/

/-- A child process exit status: `code = some c` is a normal exit with
code `c` (Rust's `status.code()`); `none` means no code was available
(e.g. killed by a signal). `success()` is exit code zero. -/
structure ExitStatus where
  code : Option Int
deriving Repr, DecidableEq

/-- `std::process::ExitStatus::success`. -/
def ExitStatus.success (st : ExitStatus) : Bool := st.code == some 0

/-- What spawning the collaborator at one iteration produces:
`.spawn()` can fail, `.wait()` can fail, or the child exits. -/
inductive SpawnResult where
  | launchError
  | waitError
  | exited (st : ExitStatus)
deriving Repr, DecidableEq

/-- The external world as `start` observes it: whether the project path
and `goals.yaml` exist at startup, what reading+parsing the file yields
on the i-th loop iteration, and what the i-th spawn produces. -/
structure Env where
  projectPath : String
  projectExists : Bool
  goalsFileExists : Bool
  reads : Nat → FileRead
  spawns : Nat → SpawnResult

/-- One reported session outcome (main.rs 141–151): the session number,
`status.success()`, and the code printed on failure,
`status.code().unwrap_or(-1)`. -/
structure SessionReport where
  sessionNum : Nat
  success : Bool
  reportedCode : Int
deriving Repr, DecidableEq

/-- The fatal errors `start` can produce, each with its message or
context chain as built by `anyhow::bail!` / `.context(...)`. -/
inductive Fatal where
  | pathNotFound (msg : String)
  | statusFileMissing (msg : String)
  | loopError (contexts : List String) (cause : String)
  | spawnFailed (msg : String)
  | waitFailed (msg : String)
deriving Repr, DecidableEq

/-- Message of `anyhow::bail!` at main.rs 88. -/
def pathNotFoundMsg (p : String) : String :=
  "Project path does not exist: " ++ p

/-- Message of `anyhow::bail!` at main.rs 94–97, with its remediation
hint. -/
def statusFileMissingMsg (p : String) : String :=
  "No goals.yaml found in " ++ p ++ ". Create one first or run 'autogoals init'."

/-- Context string on the spawn failure (main.rs 133). -/
def spawnFailedMsg : String :=
  "Failed to spawn 'claude' command. Is Claude Code installed?"

/-- Context string on the wait failure (main.rs 139). -/
def waitFailedMsg : String := "Failed to wait for Claude Code process"

/-- Result of a run of `start`: normal completion (process exit code 0)
with the list of session reports, a fatal error (non-zero exit) with the
sessions run before it, or fuel exhaustion (a modelling artefact: the real
loop just keeps going). -/
inductive RunResult where
  | done (reports : List SessionReport)
  | fatal (e : Fatal) (reports : List SessionReport)
  | fuelOut (reports : List SessionReport)
deriving Repr, DecidableEq

/-- Prepend a session report to whatever the rest of the run produced. -/
def RunResult.consReport (r : SessionReport) : RunResult → RunResult
  | .done rs => .done (r :: rs)
  | .fatal e rs => .fatal e (r :: rs)
  | .fuelOut rs => .fuelOut (r :: rs)

/-- The reports carried by a result. -/
def RunResult.reports : RunResult → List SessionReport
  | .done rs => rs
  | .fatal _ rs => rs
  | .fuelOut rs => rs

/-- Whether the whole process exits with code 0 (`main` returns `Ok`). -/
def RunResult.exitsZero : RunResult → Bool
  | .done _ => true
  | .fatal _ _ => false
  | .fuelOut _ => false

/-- The `loop` of `start` (main.rs 105–155), at absolute iteration `iter`
with current `session_num` `n`:
parse the file (fatal with the extra context "Failed to parse goals.yaml"
from main.rs 107 on failure); if no pending work, break with success;
otherwise spawn, report the exit as `(n, success, code.unwrap_or(-1))`,
increment `session_num` and continue. -/
def sessionLoop (env : Env) : Nat → Nat → Nat → RunResult
  | _, _, 0 => .fuelOut []
  | iter, n, fuel + 1 =>
    match parse_goals (env.reads iter) with
    | .error e =>
      .fatal (.loopError ("Failed to parse goals.yaml" :: e.contexts) e.cause) []
    | .ok goals =>
      if goals.has_pending_work then
        match env.spawns iter with
        | .launchError => .fatal (.spawnFailed spawnFailedMsg) []
        | .waitError => .fatal (.waitFailed waitFailedMsg) []
        | .exited st =>
          (sessionLoop env (iter + 1) (n + 1) fuel).consReport
            ⟨n, st.success, st.code.getD (-1)⟩
      else .done []

/-- `start` (main.rs 81–160): the pre-loop validations of the project path
(main.rs 87–89) and of `goals.yaml` (main.rs 92–98), then the session loop
starting at iteration 0 with `session_num = 1`. -/
def start (env : Env) (fuel : Nat) : RunResult :=
  if env.projectExists = false then
    .fatal (.pathNotFound (pathNotFoundMsg env.projectPath)) []
  else if env.goalsFileExists = false then
    .fatal (.statusFileMissing (statusFileMissingMsg env.projectPath)) []
  else sessionLoop env 0 1 fuel

/-! ## Helper lemmas -/

/-- The four status spellings that `has_pending_work` looks for. Note
`"not_started"` is not among them. -/
def pendingWorkStatuses : List String :=
  ["pending", "ready_for_execution", "in_progress", "ready_for_verification"]

theorem triggersPendingWork_iff_mem (s : String) :
    triggersPendingWork s = true ↔ s ∈ pendingWorkStatuses := by
  simp [triggersPendingWork, pendingWorkStatuses, or_assoc]

/-- `countLoop` only looks at the status strings of the goals. -/
def countLoopStatuses : List String → Nat → Nat → Nat → Nat × Nat × Nat
  | [], completed, actives, pendings => (completed, actives, pendings)
  | s :: ss, completed, actives, pendings =>
    if s = "completed" then
      countLoopStatuses ss (completed + 1) actives pendings
    else if s = "in_progress" ∨ s = "ready_for_execution"
        ∨ s = "ready_for_verification" then
      countLoopStatuses ss completed (actives + 1) pendings
    else
      countLoopStatuses ss completed actives (pendings + 1)

theorem countLoop_eq_statuses (gs : List Goal) : ∀ c a p : Nat,
    countLoop gs c a p = countLoopStatuses (gs.map Goal.status) c a p := by
  induction gs with
  | nil => intro c a p; rfl
  | cons g gs ih =>
    intro c a p
    simp only [countLoop, List.map_cons, countLoopStatuses]
    split <;> [skip; split] <;> apply ih

theorem countLoop_eq_countP (gs : List Goal) : ∀ c a p : Nat,
    countLoop gs c a p =
      (c + gs.countP (fun g => classify g.status == Bucket.completed),
       a + gs.countP (fun g => classify g.status == Bucket.active),
       p + gs.countP (fun g => classify g.status == Bucket.pending)) := by
  induction gs with
  | nil => intro c a p; simp [countLoop]
  | cons g gs ih =>
    intro c a p
    rw [countLoop_cons]
    rcases hb : classify g.status <;>
      simp [ih, List.countP_cons, hb] <;> omega

theorem any_triggers_map (gs : List Goal) :
    (gs.any fun g => triggersPendingWork g.status)
      = (gs.map Goal.status).any triggersPendingWork := by
  induction gs with
  | nil => rfl
  | cons g gs ih => simp [List.any_cons, ih]

theorem has_pending_work_statuses (f : GoalsFile) :
    f.has_pending_work = (f.goals.map Goal.status).any triggersPendingWork := by
  rw [has_pending_work_eq_any]
  exact any_triggers_map f.goals

/-! ## Claims -/

/-- C1, as stated, is false: a record with status `"not_started"` is
classified into the pending bucket of the §3 classification (here: its
classification is not `completed`, and `count_by_status` counts it as
pending), yet `has_pending_work` returns `false` on the GoalSet
containing exactly that record. -/
theorem C1_counterexample :
    classify (Goal.mk "g1" "d" "not_started" none).status ≠ Bucket.completed
    ∧ (GoalsFile.mk [Goal.mk "g1" "d" "not_started" none]).count_by_status = (0, 0, 1)
    ∧ (GoalsFile.mk [Goal.mk "g1" "d" "not_started" none]).has_pending_work = false := by
  refine ⟨by decide, by decide, by decide⟩

/-- C1 (amended): `has_pending_work` is true iff at least one record's
status is exactly one of the four strings `"pending"`,
`"ready_for_execution"`, `"in_progress"`, `"ready_for_verification"`
(so records with status `"not_started"` or an unrecognized string do not
count); it is false for an empty GoalSet and for a GoalSet in which every
record's status is `"completed"`. -/
theorem C1_has_pending_work (f : GoalsFile) :
    (f.has_pending_work = true ↔ ∃ g ∈ f.goals, g.status ∈ pendingWorkStatuses)
    ∧ (f.goals = [] → f.has_pending_work = false)
    ∧ ((∀ g ∈ f.goals, g.status = "completed") → f.has_pending_work = false) := by
  refine ⟨?_, ?_, ?_⟩
  · rw [has_pending_work_eq_any, List.any_eq_true]
    constructor
    · rintro ⟨g, hg, ht⟩
      exact ⟨g, hg, (triggersPendingWork_iff_mem g.status).mp ht⟩
    · rintro ⟨g, hg, hm⟩
      exact ⟨g, hg, (triggersPendingWork_iff_mem g.status).mpr hm⟩
  · intro h
    simp [GoalsFile.has_pending_work, h]
  · intro h
    rw [has_pending_work_eq_any]
    apply List.any_eq_false.mpr
    intro g hg
    rw [h g hg]
    decide

/-- Witness for C1 (amended): the empty GoalSet and an all-completed
GoalSet have no pending work. -/
theorem C1_witness :
    (GoalsFile.mk []).has_pending_work = false
    ∧ (GoalsFile.mk [Goal.mk "g" "d" "completed" none]).has_pending_work = false :=
  ⟨(C1_has_pending_work ⟨[]⟩).2.1 rfl,
   (C1_has_pending_work ⟨[Goal.mk "g" "d" "completed" none]⟩).2.2
     (by intro g hg; simp at hg; subst hg; rfl)⟩

/-- C2: `count_by_status` classifies every record by the total function
`classify` of its status string — the three components are exactly the
counts of records classified completed, active, and pending — and the
three counts sum to the number of goals. -/
theorem C2_count_by_status (f : GoalsFile) :
    f.count_by_status =
      (f.goals.countP (fun g => classify g.status == Bucket.completed),
       f.goals.countP (fun g => classify g.status == Bucket.active),
       f.goals.countP (fun g => classify g.status == Bucket.pending))
    ∧ f.count_by_status.1 + f.count_by_status.2.1 + f.count_by_status.2.2
        = f.goals.length := by
  constructor
  · simpa using countLoop_eq_countP f.goals 0 0 0
  · simpa [GoalsFile.count_by_status] using countLoop_sum f.goals 0 0 0

/-- C10: classification is an exact, case-sensitive comparison of the
status string alone: `"Completed"` and `"IN_PROGRESS"` classify as
pending and do not trigger `has_pending_work`; and both queries are
invariant under any change of `id`, `description` and `plan` that keeps
the status strings (in order) the same. -/
theorem C10_case_sensitive (i d : String) (p : Option String)
    (gs₁ gs₂ : List Goal)
    (hmap : gs₁.map Goal.status = gs₂.map Goal.status) :
    classify "Completed" = Bucket.pending
    ∧ classify "IN_PROGRESS" = Bucket.pending
    ∧ triggersPendingWork "Completed" = false
    ∧ triggersPendingWork "IN_PROGRESS" = false
    ∧ (GoalsFile.mk [Goal.mk i d "Completed" p]).has_pending_work = false
    ∧ (GoalsFile.mk gs₁).count_by_status = (GoalsFile.mk gs₂).count_by_status
    ∧ (GoalsFile.mk gs₁).has_pending_work = (GoalsFile.mk gs₂).has_pending_work := by
  refine ⟨by decide, by decide, by decide, by decide, ?_, ?_, ?_⟩
  · simp [GoalsFile.has_pending_work]
  · show countLoop gs₁ 0 0 0 = countLoop gs₂ 0 0 0
    rw [countLoop_eq_statuses, countLoop_eq_statuses, hmap]
  · rw [has_pending_work_statuses, has_pending_work_statuses]
    simpa using congrArg (List.any · triggersPendingWork) hmap

/-- Witness for C10: two singleton GoalSets whose records agree on status
but differ in id, description and plan. -/
theorem C10_witness :
    ([Goal.mk "a" "x" "pending" none].map Goal.status
        = [Goal.mk "b" "y" "pending" (some "pl")].map Goal.status)
    ∧ (GoalsFile.mk [Goal.mk "a" "x" "pending" none]).count_by_status
        = (GoalsFile.mk [Goal.mk "b" "y" "pending" (some "pl")]).count_by_status :=
  ⟨by decide,
   (C10_case_sensitive "i" "d" none
     [Goal.mk "a" "x" "pending" none] [Goal.mk "b" "y" "pending" (some "pl")]
     (by decide)).2.2.2.2.2.1⟩

/-- C3, as stated, is false: a goal entry with a missing status value
makes the parse fail. `status` is a required `String` field of `Goal`
with no serde default, so a document whose goal entry has `id` and
`description` but no `status` key deserializes to a missing-field error,
which `parse_goals` surfaces as a FormatError — the parse does fail. -/
theorem C3_counterexample :
    parse_goals (FileRead.doc (Yaml.map
      [("goals", Yaml.seq [Yaml.map
        [("id", Yaml.str "g1"), ("description", Yaml.str "d")]])]))
      = Except.error ⟨["Failed to parse YAML"], "missing field status"⟩ := by
  rfl

/-- C3 (amended): a status value that is present as a YAML string —
however unrecognized — never causes a parse failure, and an unrecognized
status string classifies as pending; but a missing `status` key (or a
non-string status value) is a deserialization error surfaced as a
FormatError, contrary to the claim's missing/malformed case. -/
theorem C3_unrecognized_status (es : List (String × Yaml)) (i d s : String)
    (hi : es.lookup "id" = some (Yaml.str i))
    (hd : es.lookup "description" = some (Yaml.str d))
    (hs : es.lookup "status" = some (Yaml.str s))
    (hp : es.lookup "plan" = none)
    (hu : s ∉ ["completed", "in_progress", "ready_for_execution",
               "ready_for_verification"]) :
    decodeGoal (Yaml.map es) = Except.ok ⟨i, d, s, none⟩
    ∧ classify s = Bucket.pending := by
  simp only [List.mem_cons, List.not_mem_nil, or_false, not_or] at hu
  obtain ⟨h1, h2, h3, h4⟩ := hu
  constructor
  · simp only [decodeGoal, requiredField, hi, hd, hs, hp, decodeString]
    rfl
  · simp [classify, h1, h2, h3, h4]

/-- Witness for C3 (amended): a goal entry whose status is the
unrecognized string `"wip"` parses and classifies as pending. -/
theorem C3_witness :
    decodeGoal (Yaml.map [("id", Yaml.str "a"), ("description", Yaml.str "b"),
        ("status", Yaml.str "wip")])
      = Except.ok ⟨"a", "b", "wip", none⟩
    ∧ classify "wip" = Bucket.pending :=
  C3_unrecognized_status
    [("id", Yaml.str "a"), ("description", Yaml.str "b"), ("status", Yaml.str "wip")]
    "a" "b" "wip" rfl rfl rfl rfl (by decide)

/-- C4: unknown extra fields are tolerated — an extra key on a goal entry
or at the top level leaves the parse result unchanged (serde's derived
deserializers ignore unknown keys, there is no `deny_unknown_fields`) —
and a goal entry with no `plan` key parses with `plan = none`
(`#[serde(default)]`). -/
theorem C4_forward_compatible
    (es top : List (String × Yaml)) (k k2 : String) (v v2 : Yaml)
    (i d s : String)
    (hk1 : k ≠ "id") (hk2 : k ≠ "description") (hk3 : k ≠ "status")
    (hk4 : k ≠ "plan") (hkg : k2 ≠ "goals")
    (hi : es.lookup "id" = some (Yaml.str i))
    (hd : es.lookup "description" = some (Yaml.str d))
    (hs : es.lookup "status" = some (Yaml.str s))
    (hp : es.lookup "plan" = none) :
    decodeGoal (Yaml.map ((k, v) :: es)) = Except.ok ⟨i, d, s, none⟩
    ∧ decodeGoalsFile (Yaml.map ((k2, v2) :: top))
        = decodeGoalsFile (Yaml.map top) := by
  have e1 : ("id" == k) = false := by simp [Ne.symm hk1]
  have e2 : ("description" == k) = false := by simp [Ne.symm hk2]
  have e3 : ("status" == k) = false := by simp [Ne.symm hk3]
  have e4 : ("plan" == k) = false := by simp [Ne.symm hk4]
  have eg : ("goals" == k2) = false := by simp [Ne.symm hkg]
  constructor
  · simp only [decodeGoal, requiredField, List.lookup, e1, e2, e3, e4,
      hi, hd, hs, hp, decodeString]
    rfl
  · simp only [decodeGoalsFile, requiredField, List.lookup, eg]

/-- Witness for C4: a goal entry with an extra `"priority"` key and a
top-level document with an extra `"version"` key parse as without them. -/
theorem C4_witness :
    decodeGoal (Yaml.map [("priority", Yaml.int 3), ("id", Yaml.str "a"),
        ("description", Yaml.str "b"), ("status", Yaml.str "pending")])
      = Except.ok ⟨"a", "b", "pending", none⟩
    ∧ decodeGoalsFile (Yaml.map [("version", Yaml.int 2), ("goals", Yaml.seq [])])
        = decodeGoalsFile (Yaml.map [("goals", Yaml.seq [])]) :=
  C4_forward_compatible
    [("id", Yaml.str "a"), ("description", Yaml.str "b"), ("status", Yaml.str "pending")]
    [("goals", Yaml.seq [])] "priority" "version" (Yaml.int 3) (Yaml.int 2)
    "a" "b" "pending"
    (by decide) (by decide) (by decide) (by decide) (by decide) rfl rfl rfl rfl

/-- C5: the parse result is a deterministic function of the file content
alone — two reads that return the same content parse to equal GoalSets. -/
theorem C5_deterministic (r₁ r₂ : FileRead) (h : r₁ = r₂) :
    parse_goals r₁ = parse_goals r₂ := by
  rw [h]

/-- Witness for C5: two identical reads of a one-goal document parse
equal. -/
theorem C5_witness :
    parse_goals (FileRead.doc (Yaml.map [("goals", Yaml.seq [Yaml.map
        [("id", Yaml.str "a"), ("description", Yaml.str "b"),
         ("status", Yaml.str "pending")]])]))
      = parse_goals (FileRead.doc (Yaml.map [("goals", Yaml.seq [Yaml.map
        [("id", Yaml.str "a"), ("description", Yaml.str "b"),
         ("status", Yaml.str "pending")]])])) :=
  C5_deterministic _ _ rfl

/-- C6: when the status file parses to a GoalSet with no pending work on
the first iteration, the driver performs zero sessions (the result
records no session, so no spawn ever happened) and the process exits 0. -/
theorem C6_no_work_zero_sessions (env : Env) (fuel : Nat) (f : GoalsFile)
    (hpe : env.projectExists = true) (hge : env.goalsFileExists = true)
    (hr : parse_goals (env.reads 0) = Except.ok f)
    (hnw : f.has_pending_work = false)
    (hfuel : 1 ≤ fuel) :
    start env fuel = RunResult.done []
    ∧ (start env fuel).reports.length = 0
    ∧ (start env fuel).exitsZero = true := by
  obtain ⟨fuel, rfl⟩ : ∃ m, fuel = m + 1 := ⟨fuel - 1, by omega⟩
  simp [start, hpe, hge, sessionLoop, hr, hnw, RunResult.reports,
    RunResult.exitsZero]

/-- A concrete environment whose status file holds one completed goal. -/
def envAllDone : Env :=
  ⟨"/p", true, true,
    fun _ => FileRead.doc (Yaml.map [("goals", Yaml.seq [Yaml.map
      [("id", Yaml.str "g"), ("description", Yaml.str "d"),
       ("status", Yaml.str "completed")]])]),
    fun _ => SpawnResult.launchError⟩

/-- Witness for C6: a project whose file holds one completed goal runs
zero sessions and exits 0. -/
theorem C6_witness : start envAllDone 1 = RunResult.done [] :=
  (C6_no_work_zero_sessions envAllDone 1 ⟨[Goal.mk "g" "d" "completed" none]⟩
    rfl rfl rfl rfl (by omega)).1

/-- C7: before the loop, `start` validates the project path (fatal
path-not-found error otherwise) and the presence of `goals.yaml` (fatal
status-file-missing error otherwise, whose message carries the
remediation hint "Create one first or run 'autogoals init'."); in either
case no session is attempted and the exit is non-zero. -/
theorem C7_preloop_validation (env : Env) (fuel : Nat) :
    (env.projectExists = false →
      start env fuel
        = RunResult.fatal (Fatal.pathNotFound (pathNotFoundMsg env.projectPath)) []
      ∧ (start env fuel).exitsZero = false)
    ∧ (env.projectExists = true → env.goalsFileExists = false →
      start env fuel
        = RunResult.fatal
            (Fatal.statusFileMissing (statusFileMissingMsg env.projectPath)) []
      ∧ (start env fuel).exitsZero = false)
    ∧ ∃ pre, statusFileMissingMsg env.projectPath
        = pre ++ ". Create one first or run 'autogoals init'." := by
  refine ⟨?_, ?_, ⟨"No goals.yaml found in " ++ env.projectPath, rfl⟩⟩
  · intro h
    simp [start, h, RunResult.exitsZero]
  · intro h1 h2
    simp [start, h1, h2, RunResult.exitsZero]

/-- A concrete environment whose project path does not exist. -/
def envNoPath : Env :=
  ⟨"/p", false, true, fun _ => FileRead.ioError, fun _ => SpawnResult.launchError⟩

/-- A concrete environment whose goals.yaml does not exist. -/
def envNoFile : Env :=
  ⟨"/p", true, false, fun _ => FileRead.ioError, fun _ => SpawnResult.launchError⟩

/-- Witness for C7: a missing project path and a missing goals.yaml each
fail fatally before any session. -/
theorem C7_witness :
    start envNoPath 3
      = RunResult.fatal (Fatal.pathNotFound (pathNotFoundMsg "/p")) []
    ∧ start envNoFile 3
      = RunResult.fatal (Fatal.statusFileMissing (statusFileMissingMsg "/p")) [] :=
  ⟨((C7_preloop_validation envNoPath 3).1 rfl).1,
   ((C7_preloop_validation envNoFile 3).2.1 rfl rfl).1⟩

theorem sessionLoop_parse_failure (env : Env) (e : Err) :
    ∀ (k iter n fuel : Nat),
    (∀ i, i < k → ∃ f, parse_goals (env.reads (iter + i)) = Except.ok f
        ∧ f.has_pending_work = true) →
    (∀ i, i < k → ∃ st, env.spawns (iter + i) = SpawnResult.exited st) →
    parse_goals (env.reads (iter + k)) = Except.error e →
    k + 1 ≤ fuel →
    ∃ reports,
      sessionLoop env iter n fuel
        = RunResult.fatal
            (Fatal.loopError ("Failed to parse goals.yaml" :: e.contexts) e.cause)
            reports
      ∧ reports.length = k := by
  intro k
  induction k with
  | zero =>
    intro iter n fuel _ _ herr hfuel
    obtain ⟨fuel, rfl⟩ : ∃ m, fuel = m + 1 := ⟨fuel - 1, by omega⟩
    rw [Nat.add_zero] at herr
    exact ⟨[], by simp [sessionLoop, herr], rfl⟩
  | succ k ih =>
    intro iter n fuel hok hsp herr hfuel
    obtain ⟨fuel, rfl⟩ : ∃ m, fuel = m + 1 := ⟨fuel - 1, by omega⟩
    obtain ⟨f, hf, hpend⟩ := hok 0 (by omega)
    obtain ⟨st, hst⟩ := hsp 0 (by omega)
    rw [Nat.add_zero] at hf hst
    obtain ⟨reports, hrep, hlen⟩ := ih (iter + 1) (n + 1) fuel
      (fun i hi => by
        have := hok (i + 1) (by omega)
        simpa [show iter + (i + 1) = iter + 1 + i by omega] using this)
      (fun i hi => by
        have := hsp (i + 1) (by omega)
        simpa [show iter + (i + 1) = iter + 1 + i by omega] using this)
      (by
        have := herr
        simpa [show iter + (k + 1) = iter + 1 + k by omega] using this)
      (by omega)
    refine ⟨⟨n, st.success, st.code.getD (-1)⟩ :: reports, ?_, by simp [hlen]⟩
    simp [sessionLoop, hf, hpend, hst, hrep, RunResult.consReport]

/-- C8: on any iteration `k` (not only the first), a read or parse
failure of the status file is fatal: the error is wrapped with the
context "Failed to parse goals.yaml" on top of the parse error's own
context chain, exactly the `k` earlier sessions ran (none is launched on
the failing iteration), and the process exits non-zero. -/
theorem C8_parse_failure_fatal (env : Env) (fuel k : Nat) (e : Err)
    (hpe : env.projectExists = true) (hge : env.goalsFileExists = true)
    (hok : ∀ i, i < k → ∃ f, parse_goals (env.reads i) = Except.ok f
        ∧ f.has_pending_work = true)
    (hsp : ∀ i, i < k → ∃ st, env.spawns i = SpawnResult.exited st)
    (herr : parse_goals (env.reads k) = Except.error e)
    (hfuel : k + 1 ≤ fuel) :
    ∃ reports,
      start env fuel
        = RunResult.fatal
            (Fatal.loopError ("Failed to parse goals.yaml" :: e.contexts) e.cause)
            reports
      ∧ reports.length = k
      ∧ (start env fuel).exitsZero = false := by
  obtain ⟨reports, hrep, hlen⟩ :=
    sessionLoop_parse_failure env e k 0 1 fuel
      (fun i hi => by simpa using hok i hi)
      (fun i hi => by simpa using hsp i hi)
      (by simpa using herr) hfuel
  have hst : start env fuel = sessionLoop env 0 1 fuel := by
    simp [start, hpe, hge]
  exact ⟨reports, by rw [hst, hrep], hlen, by rw [hst, hrep]; rfl⟩

/-- A concrete environment: one pending goal on iteration 0, then the
file turns malformed on every later read; sessions exit with code 0. -/
def envCorrupts : Env :=
  ⟨"/p", true, true,
    fun i => if i = 0 then
        FileRead.doc (Yaml.map [("goals", Yaml.seq [Yaml.map
          [("id", Yaml.str "g"), ("description", Yaml.str "d"),
           ("status", Yaml.str "pending")]])])
      else FileRead.malformed,
    fun _ => SpawnResult.exited ⟨some 0⟩⟩

/-- Witness for C8: one pending-goal iteration succeeds, then the second
read is malformed YAML; the run aborts fatally after exactly one
session. -/
theorem C8_witness :
    ∃ reports,
      start envCorrupts 2
        = RunResult.fatal
            (Fatal.loopError ["Failed to parse goals.yaml", "Failed to parse YAML"]
              "yaml syntax error")
            reports
      ∧ reports.length = 1 := by
  obtain ⟨reports, h1, h2, _⟩ :=
    C8_parse_failure_fatal envCorrupts 2 1
      ⟨["Failed to parse YAML"], "yaml syntax error"⟩
      rfl rfl
      (fun i hi => by
        interval_cases i
        exact ⟨⟨[Goal.mk "g" "d" "pending" none]⟩, rfl, rfl⟩)
      (fun i hi => ⟨⟨some 0⟩, rfl⟩)
      rfl (by omega)
  exact ⟨reports, h1, h2⟩

/-- C9: a session whose child exits unsuccessfully does not abort the
run: the loop step reports `(session number, failure, exit code with -1
when no code is available)`, increments the session counter, and
continues with the next iteration, which starts by re-reading the status
file. -/
theorem C9_failed_session_continues (env : Env) (iter n fuel : Nat)
    (f : GoalsFile) (st : ExitStatus)
    (hr : parse_goals (env.reads iter) = Except.ok f)
    (hpw : f.has_pending_work = true)
    (hs : env.spawns iter = SpawnResult.exited st)
    (hfail : st.success = false) :
    sessionLoop env iter n (fuel + 1)
      = (sessionLoop env (iter + 1) (n + 1) fuel).consReport
          ⟨n, false, st.code.getD (-1)⟩ := by
  simp [sessionLoop, hr, hpw, hs, hfail]

/-- A concrete environment with one forever-pending goal whose sessions
are killed without an exit code. -/
def envKilled : Env :=
  ⟨"/p", true, true,
    fun _ => FileRead.doc (Yaml.map [("goals", Yaml.seq [Yaml.map
      [("id", Yaml.str "g"), ("description", Yaml.str "d"),
       ("status", Yaml.str "pending")]])]),
    fun _ => SpawnResult.exited ⟨none⟩⟩

/-- Witness for C9: a signal-killed child (no exit code) is reported as
code -1 and the loop moves on to the next iteration. -/
theorem C9_witness :
    sessionLoop envKilled 0 1 2
      = (sessionLoop envKilled 1 2 1).consReport ⟨1, false, -1⟩ :=
  C9_failed_session_continues envKilled 0 1 1
    ⟨[Goal.mk "g" "d" "pending" none]⟩ ⟨none⟩ rfl rfl rfl rfl

end Autogoals
